import Mathlib

/-!
Verification development for the 3MF extraction engine
(`src/extractor.py`, `src/models.py`): a shallow embedding of the
extractor's data model and operations, followed by theorems about the
behaviour of extraction.

Modelling conventions:
* Python machine integers are `Int`/`Nat`; Python floats are exact
  rationals `ℚ` (no claim here depends on binary rounding).
* JSON values decoded by `json.load` are the inductive `Json`.
* XML documents parsed by `xml.etree.ElementTree` are the inductive
  `XmlElem`.
* A zip-archive entry's raw bytes are represented by what they parse as:
  `Content` records the outcome of attempting to parse the entry as XML
  and as JSON (`none` = the parse raises).
* Fallible Python code is embedded in `Except PyErr`; exceptions that a
  `try/except` catches are handled at the matching point, uncaught ones
  propagate through the monad.
-/

namespace ThreeMF

/-- Python exception kinds that can escape or be caught in the extractor. -/
inductive PyErr where
  | parseError       -- xml.etree.ElementTree.ParseError
  | jsonDecodeError  -- json.JSONDecodeError
  | valueError       -- ValueError
  | typeError        -- TypeError
  | attributeError   -- AttributeError
  | indexError       -- IndexError
  | keyError         -- KeyError
  | streamReadError  -- unreadable machine-control stream (spec §4.3)
  deriving DecidableEq, Repr

/-- A decoded JSON value (result of Python's `json.load`). -/
inductive Json where
  | null
  | b (v : Bool)
  | num (q : ℚ)
  | s (v : String)
  | arr (items : List Json)
  | obj (fields : List (String × Json))

/-- An XML element as produced by `xml.etree.ElementTree` (tag with the
namespace expanded into it, attributes, text, children). -/
inductive XmlElem where
  | mk (tag : String) (attrs : List (String × String))
       (text : Option String) (children : List XmlElem)

def XmlElem.tag : XmlElem → String
  | .mk t _ _ _ => t

def XmlElem.attrs : XmlElem → List (String × String)
  | .mk _ a _ _ => a

def XmlElem.text : XmlElem → Option String
  | .mk _ _ tx _ => tx

def XmlElem.children : XmlElem → List XmlElem
  | .mk _ _ _ c => c

/-! ### Python string primitives, modelled over `List Char` -/

/-- Characters Python's `str.strip()` removes. -/
def isPySpace (c : Char) : Bool :=
  c == ' ' || c == '\t' || c == '\n' || c == '\r' || c == '\x0b' || c == '\x0c'

/-- ASCII lowercasing of one character (`str.lower`; inputs here are ASCII). -/
def lowerChar (c : Char) : Char :=
  if 'A' ≤ c && c ≤ 'Z' then Char.ofNat (c.toNat + 32) else c

/-- `hay` begins with `pre` (`str.startswith`). -/
def lcStartsWith : List Char → List Char → Bool
  | _, [] => true
  | [], _ :: _ => false
  | a :: as, b :: bs => a == b && lcStartsWith as bs

/-- `hay` ends with `suf` (`str.endswith`). -/
def lcEndsWith (hay suf : List Char) : Bool :=
  lcStartsWith hay.reverse suf.reverse

/-- `sub` occurs inside `hay` (Python's `sub in hay`). -/
def lcHasSub (sub : List Char) : List Char → Bool
  | [] => sub.isEmpty
  | c :: t => lcStartsWith (c :: t) sub || lcHasSub sub t

/-- Index of the first occurrence of `sep` in `hay`, if any. -/
def lcFindSub (sep : List Char) : List Char → Option Nat
  | [] => if lcStartsWith [] sep then some 0 else none
  | c :: t =>
      if lcStartsWith (c :: t) sep then some 0
      else (lcFindSub sep t).map (· + 1)

/-- Fuel-driven core of `str.split(sep)` for a non-empty separator. -/
def lcSplitAux (sep : List Char) : Nat → List Char → List (List Char)
  | 0, hay => [hay]
  | fuel + 1, hay =>
      match lcFindSub sep hay with
      | none => [hay]
      | some i => hay.take i :: lcSplitAux sep fuel (hay.drop (i + sep.length))

/-- Python's `str.split(sep)` (non-overlapping, left to right). -/
def pySplitOn (st sep : String) : List String :=
  (lcSplitAux sep.data (st.data.length + 1) st.data).map String.mk

/-- Python's `str.strip()`. -/
def pyStrip (st : String) : String :=
  String.mk ((((st.data.dropWhile isPySpace).reverse).dropWhile isPySpace).reverse)

def pyLower (st : String) : String := String.mk (st.data.map lowerChar)

def pyStartsWith (st pre : String) : Bool := lcStartsWith st.data pre.data

def pyEndsWith (st suf : String) : Bool := lcEndsWith st.data suf.data

def pyContains (hay sub : String) : Bool := lcHasSub sub.data hay.data

/-- The final path component (`pathlib.PurePath.name` for the names that
occur here: everything after the last slash). -/
def pyBasename (st : String) : String :=
  String.mk ((st.data.reverse.takeWhile (· ≠ '/')).reverse)

/-- `pathlib.PurePath.stem`: the final component without its suffix; the
suffix is the part from the last dot, provided that dot is neither the
first nor the last character of the name. -/
def pyStem (st : String) : String :=
  let nm := (pyBasename st).data
  match lcFindSub ['.'] nm.reverse with
  | none => String.mk nm
  | some k =>
      let i := nm.length - 1 - k   -- index of the last '.'
      if 0 < i && i < nm.length - 1 then String.mk (nm.take i) else String.mk nm

/-! ### Python numeric conversions -/

def digitsToNat (ds : List Char) : Nat :=
  ds.foldl (fun a c => a * 10 + (c.toNat - 48)) 0

def splitSign : List Char → Int × List Char
  | '+' :: t => (1, t)
  | '-' :: t => (-1, t)
  | t => (1, t)

/-- Python's `int(str)`: optional surrounding whitespace, optional sign,
then a non-empty digit string; everything else raises `ValueError`. -/
def pyInt (st : String) : Option Int :=
  let cs := ((st.data.dropWhile isPySpace).reverse.dropWhile isPySpace).reverse
  let (sgn, ds) := splitSign cs
  if ds.isEmpty || !ds.all Char.isDigit then none
  else some (sgn * (digitsToNat ds : Int))

/-- Python's `float(str)`, as an exact rational: optional whitespace and
sign, decimal mantissa with optional fractional part, optional exponent.
(`inf`/`nan` are not modelled; no claim touches them.) -/
def pyFloat (st : String) : Option ℚ :=
  let cs := ((st.data.dropWhile isPySpace).reverse.dropWhile isPySpace).reverse
  let (sgn, cs1) := splitSign cs
  let ip := cs1.takeWhile Char.isDigit
  let cs2 := cs1.dropWhile Char.isDigit
  let (fp, cs3) :=
    match cs2 with
    | '.' :: t => (t.takeWhile Char.isDigit, t.dropWhile Char.isDigit)
    | t => ([], t)
  if ip.isEmpty && fp.isEmpty then none
  else
    let mant : ℚ := (sgn : ℚ) * (digitsToNat (ip ++ fp) : ℚ) / ((10 : ℚ) ^ fp.length)
    match cs3 with
    | [] => some mant
    | e :: t =>
        if e == 'e' || e == 'E' then
          let (esgn, t2) := splitSign t
          let eds := t2.takeWhile Char.isDigit
          let rest := t2.dropWhile Char.isDigit
          if eds.isEmpty || !rest.isEmpty then none
          else if esgn = 1 then some (mant * (10 : ℚ) ^ digitsToNat eds)
          else some (mant / (10 : ℚ) ^ digitsToNat eds)
        else none

/-- Value of one hexadecimal digit. -/
def hexDigitVal (c : Char) : Option Nat :=
  if '0' ≤ c && c ≤ '9' then some (c.toNat - 48)
  else if 'a' ≤ c && c ≤ 'f' then some (c.toNat - 87)
  else if 'A' ≤ c && c ≤ 'F' then some (c.toNat - 55)
  else none

/-- Python's `int(s, 16)` on the slices taken in `_hex_to_color_name`:
a non-empty string of hex digits; otherwise `ValueError`. -/
def pyHexInt (cs : List Char) : Option Nat :=
  match cs with
  | [] => none
  | _ =>
      cs.foldl (fun acc c =>
        match acc, hexDigitVal c with
        | some a, some v => some (a * 16 + v)
        | _, _ => none) (some 0)

/-- Python's `int()` truncation of a float toward zero. -/
def pyTrunc (q : ℚ) : Int := Int.tdiv q.num (Int.ofNat q.den)

/-- Decimal rendering of a rational whose denominator divides a power of
ten, as Python's `str()` renders the floats that appear in settings files
(`str(0.2) = "0.2"`); other rationals render as a non-numeric placeholder
(such values cannot round-trip through `float()` either way). -/
def ratStr (q : ℚ) : String :=
  if q.den = 1 then toString q.num
  else
    match (List.range 61).find? (fun k => (q * (10 : ℚ) ^ k).den = 1) with
    | none => "<float>"
    | some k =>
        let m := (q * (10 : ℚ) ^ k).num
        let sign := if m < 0 then "-" else ""
        let digits := toString m.natAbs
        let digits := if digits.length ≤ k then
            String.mk (List.replicate (k + 1 - digits.length) '0') ++ digits
          else digits
        let n := digits.length
        sign ++ String.mk (digits.data.take (n - k)) ++ "." ++
          String.mk (digits.data.drop (n - k))

/-! ### Python dynamic-value helpers on `Json` -/

/-- Python truthiness of a decoded JSON value. -/
def isTruthy : Json → Bool
  | .null => false
  | .b v => v
  | .num q => q ≠ 0
  | .s v => v ≠ ""
  | .arr l => !l.isEmpty
  | .obj l => !l.isEmpty

/-- `dict.get(key, default)` for a dict built by `json.load` (a later
duplicate key wins, as in Python's dict construction). -/
def dictGet (fields : List (String × Json)) (key : String) (dflt : Json) : Json :=
  match fields.reverse.lookup key with
  | some v => v
  | none => dflt

/-- Python's `str()` on the values that can flow out of `_get_first`
(strings stay themselves; numbers and booleans render as Python does;
containers render as a bracketed placeholder, which — like the real
`repr` — can never be parsed back by `float`). -/
def pyStr : Json → String
  | .s v => v
  | .b true => "True"
  | .b false => "False"
  | .null => "None"
  | .num q => ratStr q
  | .arr _ => "[<list>]"
  | .obj _ => "\x7b<dict>\x7d"

/-- Python's `float(x)` on a dynamic value: numbers and booleans convert,
strings are parsed (`ValueError` on failure), anything else is a
`TypeError`. -/
def pyFloatJson : Json → Except PyErr ℚ
  | .num q => .ok q
  | .b true => .ok 1
  | .b false => .ok 0
  | .s v => match pyFloat v with
      | some q => .ok q
      | none => .error .valueError
  | .null => .error .typeError
  | .arr _ => .error .typeError
  | .obj _ => .error .typeError

/-- `x[0]` on a dynamic value (used on the `nozzle_diameter` setting). -/
def pyIndex0 : Json → Except PyErr Json
  | .arr (h :: _) => .ok h
  | .arr [] => .error .indexError
  | .s v => match v.data with
      | c :: _ => .ok (.s (String.mk [c]))
      | [] => .error .indexError
  | .obj _ => .error .keyError
  | .null => .error .typeError
  | .b _ => .error .typeError
  | .num _ => .error .typeError

/-- Python `len(x)`/`x[i]` pair for the per-slot settings sequences: a
JSON array yields its items, a string yields its characters (Python
indexing a `str` gives 1-character strings); `len` of anything else is a
`TypeError`. -/
def asPyList : Json → Except PyErr (List Json)
  | .arr l => .ok l
  | .s v => .ok (v.data.map (fun c => Json.s (String.mk [c])))
  | .null => .error .typeError
  | .b _ => .error .typeError
  | .num _ => .error .typeError
  | .obj _ => .error .typeError

/-- `x == "lit"` for a string literal on the right (equal only when `x`
is that same string, as in Python). -/
def pyEqStr (j : Json) (lit : String) : Bool :=
  match j with
  | .s v => v == lit
  | _ => false

/-! ### `Except` traversal helpers (Python `for` loops that may raise) -/

/-- A `for` loop building a list, aborting on the first raised error. -/
def exMapM {α β : Type} (f : α → Except PyErr β) : List α → Except PyErr (List β)
  | [] => .ok []
  | a :: as => do
      let b ← f a
      let bs ← exMapM f as
      .ok (b :: bs)

/-- A `for` loop threading state, aborting on the first raised error. -/
def exFoldlM {σ α : Type} (f : σ → α → Except PyErr σ) : σ → List α → Except PyErr σ
  | s, [] => .ok s
  | s, a :: as => do
      let s' ← f s a
      exFoldlM f s' as

/-! ### The data model (`src/models.py`)

Fields that Python fills with arbitrary decoded-JSON values keep type
`Json`; fields the extractor always fills with a specific primitive keep
that primitive type. -/

/-- `FilamentInfo`: one filament/extruder slot. -/
structure FilamentInfo where
  slot : Int
  filament_type : Json
  color : Json
  color_name : String
  vendor : Json
  density : ℚ
  cost_per_kg : ℚ
  used_grams : Option ℚ := none
  used_meters : Option ℚ := none
  estimated_cost : Option ℚ := none

/-- `ObjectInfo`: one geometry object. -/
structure ObjectInfo where
  obj_id : Json
  name : Json
  extruder : Int
  layer_height : Json := .null
  source_file : Option String := none

/-- `PlateInfo`: one print plate. -/
structure PlateInfo where
  plate_id : Int
  name : String
  bed_type : Json
  nozzle_diameter : Json
  is_sequential : Json
  objects : List ObjectInfo := []
  print_time_seconds : Json := .null
  weight_grams : Json := .null

/-- `PrintSettings`: the dataclass fields of `models.py` (mandatory
fields first, then the optional fields with their declared defaults).
Note there is no `print_speed` field — the speed fields are
`outer_wall_speed`, `inner_wall_speed`, `infill_speed`, `travel_speed`,
`initial_layer_speed` and `top_surface_speed` — which is why the
constructor call in `_extract_print_settings` raises (see
`extractPrintSettings`). -/
structure PrintSettings where
  layer_height : ℚ
  initial_layer_height : ℚ
  wall_loops : Int
  top_shell_layers : Int
  bottom_shell_layers : Int
  infill_density : Json
  infill_pattern : Json
  nozzle_temp : Int
  nozzle_temp_initial : Int
  bed_temp : Int
  bed_type : Json
  outer_wall_speed : Option Int := none
  inner_wall_speed : Option Int := none
  infill_speed : Option Int := none
  travel_speed : Option Int := none
  initial_layer_speed : Option Int := none
  top_surface_speed : Option Int := none
  default_acceleration : Option Int := none
  outer_wall_acceleration : Option Int := none
  inner_wall_acceleration : Option Int := none
  line_width : Option ℚ := none
  outer_wall_line_width : Option ℚ := none
  inner_wall_line_width : Option ℚ := none
  infill_line_width : Option ℚ := none
  retraction_length : Option ℚ := none
  retraction_speed : Option Int := none
  z_hop : Option ℚ := none
  z_hop_type : Option String := none
  fan_min_speed : Option Int := none
  fan_max_speed : Option Int := none
  seam_position : Option String := none
  brim_type : Option String := none
  brim_width : Option ℚ := none
  skirt_loops : Option Int := none
  support_enabled : Bool := false
  support_type : Option String := none
  ironing_enabled : Bool := false
  fuzzy_skin : Option String := none

/-- `PrintStatistics`: aggregate slice outcome. -/
structure PrintStatistics where
  total_print_time_seconds : Int
  total_print_time_str : String
  total_weight_grams : ℚ
  total_filament_meters : ℚ
  total_cost : ℚ
  total_layers : Int
  max_z_height : ℚ

/-- `ProjectSummary`: the root aggregate returned by `extract()`. -/
structure ProjectSummary where
  title : String
  source_file : String
  gcode_file : Option String
  extraction_date : Nat
  application : String
  printer_model : Json
  nozzle_diameter : ℚ
  filaments : List FilamentInfo
  objects : List ObjectInfo
  plates : List PlateInfo
  settings : PrintSettings
  statistics : Option PrintStatistics
  is_sliced : Bool

/-- Modelled from the spec: the machine-stream scanner's output record
(`GCodeStatistics`; its source file `gcode_parser.py` is not in the
repository — §4.3 fixes its shape: generator label, estimated-time
fields, per-slot mass/length/cost mappings keyed by slot number, grand
totals, layer count, max Z). -/
structure GCodeStatistics where
  generator : Option String
  estimated_time_seconds : Int
  estimated_time_str : String
  total_weight_grams : ℚ
  total_length_mm : ℚ
  total_cost : ℚ
  total_layers : Int
  max_z_height : ℚ
  weight_per_slot : List (Int × ℚ)
  length_per_slot : List (Int × ℚ)
  cost_per_slot : List (Int × ℚ)

/-! ### The container and the extraction inputs -/

/-- What one archive entry's bytes parse as: `asXml` is the outcome of
`ET.parse` on the entry (`none` = `ParseError`), `asJson` the outcome of
`json.load` (`none` = `JSONDecodeError`). -/
structure Content where
  asXml : Option XmlElem := none
  asJson : Option Json := none

/-- The opened zip archive: entry names in order, with their contents. -/
abbrev Archive := List (String × Content)

/-- `zf.open(name)`: zipfile resolves a name through a dict built from
the entry list, so a later duplicate wins. -/
def entryGet (ar : Archive) (nm : String) : Option Content :=
  ar.reverse.lookup nm

def namesOf (ar : Archive) : List String := ar.map Prod.fst

/-- Everything one run of `extract()` reads from the outside world:
the container, the constructor arguments, the directory listing
(`sorted(folder.glob('*.gcode'))`), filesystem existence, and what
parsing a given G-code file would yield (`.error` = the stream is
unreadable and the scanner raises, spec §4.3). -/
structure World where
  filename : String
  archive : Archive
  providedGcodePath : Option String := none
  gcodeFiles : List String := []
  selector : Option (List String → String) := none
  fileExists : String → Bool := fun _ => false
  parseGcode : String → Except Unit GCodeStatistics := fun _ => .error ()

/-! ### XML access helpers (`ElementTree` operations the extractor uses) -/

/-- `elem.findall(tag)`: the direct children with the given tag. -/
def childrenTag (e : XmlElem) (tag : String) : List XmlElem :=
  e.children.filter (fun c => c.tag == tag)

/-- `elem.find(tag)`: the first direct child with the given tag. -/
def findFirstTag (e : XmlElem) (tag : String) : Option XmlElem :=
  e.children.find? (fun c => c.tag == tag)

/-- `elem.get(attr)`: attribute lookup (XML attributes are unique). -/
def attrGet (e : XmlElem) (key : String) : Option String :=
  e.attrs.lookup key

/-- The ElementTree-expanded tag of `model:metadata` under the namespace
map at `ThreeMFExtractor.NAMESPACES`. -/
def nsMetadataTag : String :=
  "\x7bhttp://schemas.microsoft.com/3dmanufacturing/core/2015/02\x7dmetadata"

/-! ### Loaders (`_load_main_model`, `_load_project_settings`,
`_load_model_settings`) -/

/-- `_load_main_model`: reads `3D/3dmodel.model`; a missing entry
(`KeyError`) is caught and yields `None`, but a parse failure
(`ET.ParseError`) is *not* in the except clause and propagates. -/
def loadMainModel (ar : Archive) : Except PyErr (Option XmlElem) :=
  match entryGet ar "3D/3dmodel.model" with
  | none => .ok none
  | some c =>
      match c.asXml with
      | some e => .ok (some e)
      | none => .error .parseError

/-- `_load_project_settings`: reads `Metadata/project_settings.config`;
both `KeyError` and `json.JSONDecodeError` are caught and yield `{}`. -/
def loadProjectSettings (ar : Archive) : Json :=
  match entryGet ar "Metadata/project_settings.config" with
  | none => .obj []
  | some c =>
      match c.asJson with
      | some j => j
      | none => .obj []

/-- `_load_model_settings`: reads `Metadata/model_settings.config`; both
`KeyError` and `ET.ParseError` are caught and yield `None`. -/
def loadModelSettings (ar : Archive) : Option XmlElem :=
  match entryGet ar "Metadata/model_settings.config" with
  | none => none
  | some c => c.asXml

/-- `_get_setting`: `self._project_settings.get(key, default)`; raises
`AttributeError` when the loaded settings JSON was not an object. -/
def getSetting (ps : Json) (key : String) (dflt : Json) : Except PyErr Json :=
  match ps with
  | .obj fields => .ok (dictGet fields key dflt)
  | _ => .error .attributeError

/-- `_get_metadata`: first matching `model:metadata` child by `name`
attribute, then (only when that search matched nothing) a
namespace-agnostic retry; returns the matched element's text. -/
def getMetadata (mm : Option XmlElem) (name : String) : Option String :=
  match mm with
  | none => none
  | some root =>
      match root.children.find?
          (fun c => c.tag == nsMetadataTag && attrGet c "name" == some name) with
      | some m => m.text
      | none =>
          match root.children.find?
              (fun c => c.tag == "metadata" && attrGet c "name" == some name) with
          | some m => m.text
          | none => none

/-- `_get_title`: the `Title` metadata when truthy after stripping, else
the container filename's stem. -/
def getTitle (mm : Option XmlElem) (filename : String) : String :=
  match getMetadata mm "Title" with
  | some t => if pyStrip t ≠ "" then pyStrip t else pyStem filename
  | none => pyStem filename

/-! ### Color names (`_hex_to_color_name`) -/

/-- The fixed palette, in source insertion order. -/
def colorPalette : List ((Int × Int × Int) × String) :=
  [((255, 255, 255), "Branco"),
   ((0, 0, 0), "Preto"),
   ((255, 0, 0), "Vermelho"),
   ((0, 255, 0), "Verde"),
   ((0, 0, 255), "Azul"),
   ((255, 255, 0), "Amarelo"),
   ((255, 165, 0), "Laranja"),
   ((128, 128, 128), "Cinza"),
   ((229, 229, 229), "Branco"),
   ((77, 77, 77), "Cinza Escuro")]

def sqDist (r g b : Int) : Int × Int × Int → Int
  | (cr, cg, cb) => (r - cr) ^ 2 + (g - cg) ^ 2 + (b - cb) ^ 2

/-- The `min_dist`/`closest` loop: strictly smaller distance wins, so the
first palette entry wins ties; `none` models the initial `float('inf')`. -/
def nearestColor (r g b : Int) : Option Int × String :=
  colorPalette.foldl
    (fun acc entry =>
      let d := sqDist r g b entry.1
      match acc.1 with
      | none => (some d, entry.2)
      | some m => if d < m then (some d, entry.2) else acc)
    (none, "")

/-- `_hex_to_color_name`. -/
def hexToColorName (hex_color : String) : String :=
  if hex_color.data.isEmpty || !pyStartsWith hex_color "#" then ""
  else
    let clean := hex_color.data.dropWhile (· == '#')
    match pyHexInt (clean.take 2), pyHexInt ((clean.drop 2).take 2),
          pyHexInt ((clean.drop 4).take 2) with
    | some r, some g, some b =>
        match nearestColor (r : Int) (g : Int) (b : Int) with
        | (some m, closest) => if m < 10000 then closest else ""
        | (none, _) => ""
    | _, _, _ => ""

/-- `_hex_to_color_name` applied to a dynamic value: a falsy argument
returns `''` at once; a truthy non-string raises `AttributeError` at
`.startswith`. -/
def hexToColorNameJson : Json → Except PyErr String
  | .s v => .ok (hexToColorName v)
  | j => if isTruthy j then .error .attributeError else .ok ""

/-! ### `_extract_filaments` -/

/-- `float(densities[i]) if i < len(densities) else 1.24`. -/
def filDensity (densities : List Json) (i : Nat) : Except PyErr ℚ :=
  if i < densities.length then pyFloatJson (densities.getD i .null)
  else pure ((124 : ℚ) / 100)

/-- `float(costs[i]) if i < len(costs) else 0.0`. -/
def filCost (costs : List Json) (i : Nat) : Except PyErr ℚ :=
  if i < costs.length then pyFloatJson (costs.getD i .null)
  else pure (0 : ℚ)

/-- One iteration of the filament loop (slot `i + 1`). -/
def mkFilament (types colors vendors densities costs : List Json) (i : Nat) :
    Except PyErr FilamentInfo := do
  let cname ← hexToColorNameJson (colors.getD i (.s ""))
  let density ← filDensity densities i
  let cost ← filCost costs i
  pure { slot := (i : Int) + 1
         filament_type := types.getD i (.s "Unknown")
         color := colors.getD i (.s "#808080")
         color_name := cname
         vendor := vendors.getD i (.s "Unknown")
         density := density
         cost_per_kg := cost }

/-- One per-slot settings sequence as the loop views it: the raw setting
value (default `[]`) together with the `len`/indexing interpretation. -/
def settingList (ps : Json) (key : String) : Except PyErr (List Json) :=
  getSetting ps key (.arr []) >>= asPyList

/-- `_extract_filaments`. -/
def extractFilaments (ps : Json) : Except PyErr (List FilamentInfo) := do
  let types ← settingList ps "filament_type"
  let colors ← settingList ps "filament_colour"
  let vendors ← settingList ps "filament_vendor"
  let densities ← settingList ps "filament_density"
  let costs ← settingList ps "filament_cost"
  let num_filaments := max (max types.length colors.length) 1
  exMapM (mkFilament types colors vendors densities costs) (List.range num_filaments)

/-! ### `_update_filaments_from_gcode` -/

def updateFilament (gs : GCodeStatistics) (f : FilamentInfo) : FilamentInfo :=
  { f with
    used_grams := match gs.weight_per_slot.lookup f.slot with
      | some w => some w
      | none => f.used_grams
    used_meters := match gs.length_per_slot.lookup f.slot with
      | some l => some (l / 1000)
      | none => f.used_meters
    estimated_cost := match gs.cost_per_slot.lookup f.slot with
      | some c => some c
      | none => f.estimated_cost }

def updateFilamentsFromGcode (gstats : Option GCodeStatistics)
    (fs : List FilamentInfo) : List FilamentInfo :=
  match gstats with
  | none => fs
  | some gs => fs.map (updateFilament gs)

/-! ### `_extract_objects` -/

/-- State of the metadata loop: (name, extruder, source_file). -/
abbrev ObjMetaState := String × Int × Option String

/-- One metadata child of an `<object>` element; a non-empty `extruder`
value goes through `int()` and can raise `ValueError`. -/
def objMetaStep (st : ObjMetaState) (m : XmlElem) : Except PyErr ObjMetaState :=
  let key := (attrGet m "key").getD ""
  let value := (attrGet m "value").getD ""
  if key == "name" then .ok (value, st.2.1, st.2.2)
  else if key == "extruder" then
    if value == "" then .ok (st.1, 1, st.2.2)
    else match pyInt value with
      | some n => .ok (st.1, n, st.2.2)
      | none => .error .valueError
  else if key == "source_file" then
    .ok (st.1, st.2.1, if value == "" then none else some (pyBasename value))
  else .ok st

/-- `int(obj_elem.get('id', 0))`: a present attribute goes through
`int()` (possibly raising `ValueError`), an absent one defaults to 0. -/
def objIdOf (el : XmlElem) : Except PyErr Int :=
  match attrGet el "id" with
  | some v =>
      match pyInt v with
      | some n => .ok n
      | none => .error .valueError
  | none => .ok 0

/-- One `<object>` element of the model-settings document. -/
def mkObjectInfo (el : XmlElem) : Except PyErr ObjectInfo := do
  let objId ← objIdOf el
  let st ← exFoldlM objMetaStep ("", 1, none) (childrenTag el "metadata")
  pure { obj_id := .num (objId : ℚ)
         name := .s st.1
         extruder := st.2.1
         layer_height := .null
         source_file := st.2.2 }

/-- `_extract_objects`. -/
def extractObjects (ms : Option XmlElem) : Except PyErr (List ObjectInfo) :=
  match ms with
  | none => .ok []
  | some e => exMapM mkObjectInfo (childrenTag e "object")

/-! ### `_extract_plates` -/

/-- `_extract_plate_objects`: iterate `plate_data.get('bbox_objects', [])`;
iterating a non-sequence raises `TypeError`, and `.get` on a non-dict
element raises `AttributeError` (neither is caught). -/
def extractPlateObjects (fields : List (String × Json)) :
    Except PyErr (List ObjectInfo) :=
  match dictGet fields "bbox_objects" (.arr []) with
  | .arr l =>
      exMapM (fun bo =>
        match bo with
        | .obj bkvs =>
            .ok { obj_id := dictGet bkvs "id" (.num 0)
                  name := dictGet bkvs "name" (.s "Unknown")
                  extruder := 1
                  layer_height := dictGet bkvs "layer_height" .null
                  source_file := none }
        | _ => .error .attributeError) l
  | .s v => if v == "" then .ok [] else .error .attributeError
  | .obj kvs => if kvs.isEmpty then .ok [] else .error .attributeError
  | _ => .error .typeError

/-- Build one `PlateInfo` from a successfully decoded `plate_*.json`
value (calling `.get` on a non-dict raises `AttributeError`). -/
def mkPlateFromJson (plate_num : Int) (j : Json) : Except PyErr PlateInfo :=
  match j with
  | .obj fields => do
      let objs ← extractPlateObjects fields
      pure { plate_id := plate_num
             name := "Plate " ++ toString plate_num
             bed_type := dictGet fields "bed_type" (.s "unknown")
             nozzle_diameter := dictGet fields "nozzle_diameter" (.num ((4 : ℚ) / 10))
             is_sequential := dictGet fields "is_seq_print" (.b false)
             objects := objs
             print_time_seconds := dictGet fields "prediction" .null
             weight_grams := dictGet fields "weight" .null }
  | _ => .error .attributeError

/-- Does one archive entry name match the per-plate JSON pattern? -/
def isPlateJsonName (nm : String) : Bool :=
  pyStartsWith nm "Metadata/plate_" && pyEndsWith nm ".json"

/-- One iteration of the `namelist()` loop of `_extract_plates`: the
`try` block catches only `JSONDecodeError` (a malformed entry) and
`ValueError` (a malformed plate number) by skipping the entry; other
exceptions propagate. -/
def plateStep (ar : Archive) (acc : List PlateInfo) (nm : String) :
    Except PyErr (List PlateInfo) :=
  if isPlateJsonName nm then
    match entryGet ar nm with
    | none => .ok acc   -- unreachable: the name came from the entry list
    | some c =>
        match c.asJson with
        | none => .ok acc   -- json.JSONDecodeError: continue
        | some j =>
            match (pySplitOn nm "plate_").get? 1 with
            | none => .error .indexError   -- unreachable under the filter
            | some rest =>
                match pyInt ((pySplitOn rest ".").headD "") with
                | none => .ok acc   -- ValueError: continue
                | some pn => do
                    let p ← mkPlateFromJson pn j
                    .ok (acc ++ [p])
  else .ok acc

/-- The synthetic default plate built from the first `<plate>` element of
the model-settings document and project-wide settings. -/
def mkSyntheticPlate (ps : Json) (plateElem : XmlElem) :
    Except PyErr PlateInfo := do
  let plateId ← exFoldlM
    (fun pid m =>
      if attrGet m "key" == some "plater_id" then
        match attrGet m "value" with
        | some v =>
            match pyInt v with
            | some n => .ok n
            | none => .error .valueError
        | none => .ok (1 : Int)   -- int(meta.get('value', 1))
      else .ok pid)
    (1 : Int) (childrenTag plateElem "metadata")
  let bed ← getSetting ps "curr_bed_type" (.s "unknown")
  let nozzleJ ← getSetting ps "nozzle_diameter" (.arr [.s "0.4"])
  let nozzle0 ← pyIndex0 nozzleJ
  let nozzle ← pyFloatJson nozzle0
  let seqJ ← getSetting ps "print_sequence" (.s "")
  pure { plate_id := plateId
         name := "Plate " ++ toString plateId
         bed_type := bed
         nozzle_diameter := .num nozzle
         is_sequential := .b (pyEqStr seqJ "by object")
         objects := []
         print_time_seconds := .null
         weight_grams := .null }

/-- `_extract_plates`. -/
def extractPlates (ar : Archive) (ps : Json) (ms : Option XmlElem) :
    Except PyErr (List PlateInfo) := do
  let plates ← exFoldlM (plateStep ar) [] (namesOf ar)
  if plates.isEmpty then
    match ms with
    | none => .ok plates
    | some e =>
        match findFirstTag e "plate" with
        | none => .ok plates
        | some pe => do
            let p ← mkSyntheticPlate ps pe
            .ok (plates ++ [p])
  else .ok plates

/-! ### `_extract_print_settings` -/

/-- Inner helper `get_first` (the default is passed as the string
`str(default)` computed at each call site). -/
def getFirst (ps : Json) (key : String) (dstr : String) : Except PyErr Json := do
  let v ← getSetting ps key (.s dstr)
  match v with
  | .arr l => pure (match l with | h :: _ => h | [] => .s dstr)
  | j => pure (if isTruthy j then .s (pyStr j) else .s dstr)

/-- Inner helper `get_int`: `int(float(val))` with `ValueError` and
`TypeError` falling back to the default. -/
def getIntS (ps : Json) (key : String) (dstr : String) (d : Int) :
    Except PyErr Int := do
  let v ← getFirst ps key dstr
  match pyFloatJson v with
  | .ok q => pure (pyTrunc q)
  | .error _ => pure d

/-- Inner helper `get_float`. -/
def getFloatS (ps : Json) (key : String) (dstr : String) (d : ℚ) :
    Except PyErr ℚ := do
  let v ← getFirst ps key dstr
  match pyFloatJson v with
  | .ok q => pure q
  | .error _ => pure d

/-- The bed-temperature key selection: case-insensitive substring match
on the bed-type label, priority `cool`, `textured`, `eng`, else the
hot-plate key. -/
def bedTempKey (bed_type : String) : String :=
  if pyContains (pyLower bed_type) "cool" then "cool_plate_temp"
  else if pyContains (pyLower bed_type) "textured" then "textured_plate_temp"
  else if pyContains (pyLower bed_type) "eng" then "eng_plate_temp"
  else "hot_plate_temp"

/-- `bed_type.lower()` is only legal on a string; a non-string bed-type
value raises `AttributeError`. -/
def asBedTypeStr : Json → Except PyErr String
  | .s v => .ok v
  | _ => .error .attributeError

/-- The `support_type` constructor argument:
`self._get_setting('support_type') if self._get_setting('enable_support', '0') == '1' else None`. -/
def supportTypeOf (ps : Json) (supJ : Json) : Except PyErr Json :=
  if pyEqStr supJ "1" then getSetting ps "support_type" .null
  else pure Json.null

/-- `_extract_print_settings`: resolves the bed-temperature key and
evaluates every constructor argument exactly as the source does (each can
raise, e.g. `AttributeError` on a non-string bed type), and then the
`return PrintSettings(...)` call itself unconditionally raises
`TypeError`, because it passes the keyword `print_speed` and the
`PrintSettings` dataclass declares no such field — so this function never
returns a value. -/
def extractPrintSettings (ps : Json) : Except PyErr PrintSettings := do
  let bedJ ← getSetting ps "curr_bed_type" (.s "High Temp Plate")
  let bedStr ← asBedTypeStr bedJ
  let key := bedTempKey bedStr
  let _layer_height ← getFloatS ps "layer_height" "0.2" ((2 : ℚ) / 10)
  let _initial_layer_height ←
    getFloatS ps "initial_layer_print_height" "0.2" ((2 : ℚ) / 10)
  let _wall_loops ← getIntS ps "wall_loops" "2" 2
  let _top_shell_layers ← getIntS ps "top_shell_layers" "4" 4
  let _bottom_shell_layers ← getIntS ps "bottom_shell_layers" "3" 3
  let _infill_density ← getSetting ps "sparse_infill_density" (.s "15%")
  let _infill_pattern ← getSetting ps "sparse_infill_pattern" (.s "grid")
  let _nozzle_temp ← getIntS ps "nozzle_temperature" "200" 200
  let _nozzle_temp_initial ←
    getIntS ps "nozzle_temperature_initial_layer" "200" 200
  let _bed_temp ← getIntS ps key "60" 60
  let _inner_wall ← getIntS ps "inner_wall_speed" "0" 0
  let _travel ← getIntS ps "travel_speed" "0" 0
  let _supJ ← getSetting ps "enable_support" (.s "0")
  let supJ2 ← getSetting ps "enable_support" (.s "0")
  let _support_type ← supportTypeOf ps supJ2
  .error .typeError

/-! ### `_extract_statistics` -/

def mkPrintStatistics (gs : GCodeStatistics) : PrintStatistics :=
  { total_print_time_seconds := gs.estimated_time_seconds
    total_print_time_str := gs.estimated_time_str
    total_weight_grams := gs.total_weight_grams
    total_filament_meters := gs.total_length_mm / 1000
    total_cost := gs.total_cost
    total_layers := gs.total_layers
    max_z_height := gs.max_z_height }

/-! ### `find_matching_gcode` and the G-code statistics load -/

/-- `find_matching_gcode`: zero candidates → none; one → it; several →
first name-similarity match, else the injected selector, else none. -/
def findMatchingGcode (filename : String) (gcodeFiles : List String)
    (selector : Option (List String → String)) : Option String :=
  match gcodeFiles with
  | [] => none
  | [g] => some g
  | gs =>
      let project_name := pyLower (pyStem filename)
      match gs.find? (fun g =>
          let gcode_name := pyLower (pyStem g)
          pyStartsWith gcode_name project_name ||
          pyStartsWith project_name ((pySplitOn gcode_name "_").headD "")) with
      | some g => some g
      | none =>
          match selector with
          | some sel => some (sel gs)
          | none => none

/-- The G-code path `extract()` works with: the constructor-provided path
if any, else `find_matching_gcode`. -/
def resolveGcodePath (w : World) : Option String :=
  match w.providedGcodePath with
  | some p => some p
  | none => findMatchingGcode w.filename w.gcodeFiles w.selector

/-- Loading the scanner statistics in `extract()`: no resolved path or a
vanished file leaves them absent; `parser.parse()` is not wrapped in any
`try`, so an unreadable stream's error propagates. -/
def loadGcodeStats (w : World) (gpath : Option String) :
    Except PyErr (Option GCodeStatistics) :=
  match gpath with
  | none => .ok none
  | some p =>
      if w.fileExists p then
        match w.parseGcode p with
        | .ok st => .ok (some st)
        | .error _ => .error .streamReadError
      else .ok none

/-! ### `extract()` -/

/-- The producing-application label: `Application` metadata (or
`'Unknown'`), overridden by a truthy scanner generator string. -/
def resolveApplication (gstats : Option GCodeStatistics)
    (mainModel : Option XmlElem) : String :=
  let app0 := match getMetadata mainModel "Application" with
    | some a => if a ≠ "" then a else "Unknown"
    | none => "Unknown"
  match gstats with
  | some gs => match gs.generator with
      | some g => if g ≠ "" then g else app0
      | none => app0
  | none => app0

/-- The body of `extract()` with the timestamp left at a placeholder;
`extractAt` injects the clock reading. -/
def extractPre (w : World) : Except PyErr ProjectSummary := do
  let gpath := resolveGcodePath w
  let gstats ← loadGcodeStats w gpath
  let mainModel ← loadMainModel w.archive
  let ps := loadProjectSettings w.archive
  let ms := loadModelSettings w.archive
  let title := getTitle mainModel w.filename
  let application := resolveApplication gstats mainModel
  let filaments0 ← extractFilaments ps
  let filaments := updateFilamentsFromGcode gstats filaments0
  let printer_model ← getSetting ps "printer_model" (.s "Unknown")
  let nozzleJ ← getSetting ps "nozzle_diameter" (.arr [.s "0.4"])
  let nozzle0 ← pyIndex0 nozzleJ
  let nozzle ← pyFloatJson nozzle0
  let objects ← extractObjects ms
  let plates ← extractPlates w.archive ps ms
  let settings ← extractPrintSettings ps
  pure { title
         source_file := w.filename
         gcode_file := gpath.map pyBasename
         extraction_date := 0
         application
         printer_model
         nozzle_diameter := nozzle
         filaments
         objects
         plates
         settings
         statistics := gstats.map mkPrintStatistics
         is_sliced := gstats.isSome }

/-- `extract()`: the body above with `datetime.now()` supplied as `now`. -/
def extractAt (w : World) (now : Nat) : Except PyErr ProjectSummary :=
  (extractPre w).map (fun s => { s with extraction_date := now })

/-! ## Generic lemmas about the `Except` plumbing -/

theorem exBind_ok {α β : Type} {x : Except PyErr α} {f : α → Except PyErr β}
    {b : β} : x >>= f = .ok b ↔ ∃ a, x = .ok a ∧ f a = .ok b := by
  cases x <;> simp [Bind.bind, Except.bind]

theorem exPure_ok {α : Type} {a b : α} :
    (pure a : Except PyErr α) = .ok b ↔ a = b := by
  simp [Pure.pure, Except.pure]

theorem exMapM_ok_length {α β : Type} {f : α → Except PyErr β} :
    ∀ {l : List α} {l' : List β}, exMapM f l = .ok l' → l'.length = l.length := by
  intro l
  induction l with
  | nil =>
      intro l' h
      simp only [exMapM] at h
      injection h with h
      simp [← h]
  | cons a as ih =>
      intro l' h
      simp only [exMapM] at h
      rw [exBind_ok] at h
      obtain ⟨b, _, h⟩ := h
      rw [exBind_ok] at h
      obtain ⟨bs, hbs, h⟩ := h
      injection h with h
      simp [← h, ih hbs]

theorem exMapM_ok_get {α β : Type} {f : α → Except PyErr β} :
    ∀ {l : List α} {l' : List β}, exMapM f l = .ok l' →
      ∀ i (hi : i < l.length) (hi' : i < l'.length),
        f (l.get ⟨i, hi⟩) = .ok (l'.get ⟨i, hi'⟩) := by
  intro l
  induction l with
  | nil => intro l' _ i hi; exact absurd hi (by simp)
  | cons a as ih =>
      intro l' h i hi hi'
      simp only [exMapM] at h
      rw [exBind_ok] at h
      obtain ⟨b, hb, h⟩ := h
      rw [exBind_ok] at h
      obtain ⟨bs, hbs, h⟩ := h
      injection h with h
      subst h
      cases i with
      | zero => simpa using hb
      | succ i =>
          simpa using ih hbs i (Nat.lt_of_succ_lt_succ hi)
            (Nat.lt_of_succ_lt_succ hi')

theorem exMapM_ok_map {α β γ : Type} {f : α → Except PyErr β} {g : β → γ}
    {h : α → γ} (hfg : ∀ a b, f a = .ok b → g b = h a) :
    ∀ {l : List α} {l' : List β}, exMapM f l = .ok l' →
      l'.map g = l.map h := by
  intro l
  induction l with
  | nil =>
      intro l' hl
      simp only [exMapM] at hl
      injection hl with hl
      simp [← hl]
  | cons a as ih =>
      intro l' hl
      simp only [exMapM] at hl
      rw [exBind_ok] at hl
      obtain ⟨b, hb, hl⟩ := hl
      rw [exBind_ok] at hl
      obtain ⟨bs, hbs, hl⟩ := hl
      injection hl with hl
      simp [← hl, hfg a b hb, ih hbs]

theorem exFoldlM_fixed {σ α : Type} {f : σ → α → Except PyErr σ} :
    ∀ {l : List α} {s : σ}, (∀ a ∈ l, f s a = .ok s) →
      exFoldlM f s l = .ok s := by
  intro l
  induction l with
  | nil => intro s _; rfl
  | cons a as ih =>
      intro s hid
      simp only [exFoldlM]
      rw [exBind_ok]
      exact ⟨s, hid a (by simp), ih (fun b hb => hid b (by simp [hb]))⟩

theorem exFoldlM_inv {σ α : Type} {f : σ → α → Except PyErr σ} {P : σ → Prop}
    (hstep : ∀ t a t', f t a = .ok t' → P t → P t') :
    ∀ {l : List α} {s s' : σ}, exFoldlM f s l = .ok s' → P s → P s' := by
  intro l
  induction l with
  | nil =>
      intro s s' h hp
      simp only [exFoldlM] at h
      injection h with h
      exact h ▸ hp
  | cons a as ih =>
      intro s s' h hp
      simp only [exFoldlM] at h
      rw [exBind_ok] at h
      obtain ⟨t, ht, h⟩ := h
      exact ih h (hstep s a t ht hp)

/-! ## Inversion of the top-level extraction -/

theorem extractAt_ok_elim {w : World} {now : Nat} {s : ProjectSummary}
    (h : extractAt w now = .ok s) :
    ∃ s0, extractPre w = .ok s0 ∧ s = { s0 with extraction_date := now } := by
  unfold extractAt at h
  cases hp : extractPre w with
  | error e => rw [hp] at h; exact absurd h (by simp [Except.map])
  | ok s0 =>
      rw [hp] at h
      simp only [Except.map] at h
      injection h with h
      exact ⟨s0, rfl, h.symm⟩

theorem extractPre_ok_elim {w : World} {s : ProjectSummary}
    (h : extractPre w = .ok s) :
    ∃ gstats mainModel filaments0 printer_model nozzleJ nozzle0 nozzle
      objects plates settings,
      loadGcodeStats w (resolveGcodePath w) = .ok gstats ∧
      loadMainModel w.archive = .ok mainModel ∧
      extractFilaments (loadProjectSettings w.archive) = .ok filaments0 ∧
      getSetting (loadProjectSettings w.archive) "printer_model" (.s "Unknown")
        = .ok printer_model ∧
      getSetting (loadProjectSettings w.archive) "nozzle_diameter"
        (.arr [.s "0.4"]) = .ok nozzleJ ∧
      pyIndex0 nozzleJ = .ok nozzle0 ∧
      pyFloatJson nozzle0 = .ok nozzle ∧
      extractObjects (loadModelSettings w.archive) = .ok objects ∧
      extractPlates w.archive (loadProjectSettings w.archive)
        (loadModelSettings w.archive) = .ok plates ∧
      extractPrintSettings (loadProjectSettings w.archive) = .ok settings ∧
      s = { title := getTitle mainModel w.filename
            source_file := w.filename
            gcode_file := (resolveGcodePath w).map pyBasename
            extraction_date := 0
            application := resolveApplication gstats mainModel
            printer_model := printer_model
            nozzle_diameter := nozzle
            filaments := updateFilamentsFromGcode gstats filaments0
            objects := objects
            plates := plates
            settings := settings
            statistics := gstats.map mkPrintStatistics
            is_sliced := gstats.isSome } := by
  unfold extractPre at h
  rw [exBind_ok] at h; obtain ⟨gstats, h1, h⟩ := h
  rw [exBind_ok] at h; obtain ⟨mainModel, h2, h⟩ := h
  rw [exBind_ok] at h; obtain ⟨filaments0, h3, h⟩ := h
  rw [exBind_ok] at h; obtain ⟨printer_model, h4, h⟩ := h
  rw [exBind_ok] at h; obtain ⟨nozzleJ, h5, h⟩ := h
  rw [exBind_ok] at h; obtain ⟨nozzle0, h6, h⟩ := h
  rw [exBind_ok] at h; obtain ⟨nozzle, h7, h⟩ := h
  rw [exBind_ok] at h; obtain ⟨objects, h8, h⟩ := h
  rw [exBind_ok] at h; obtain ⟨plates, h9, h⟩ := h
  rw [exBind_ok] at h; obtain ⟨settings, h10, h⟩ := h
  rw [exPure_ok] at h
  exact ⟨gstats, mainModel, filaments0, printer_model, nozzleJ, nozzle0,
    nozzle, objects, plates, settings,
    h1, h2, h3, h4, h5, h6, h7, h8, h9, h10, h.symm⟩

/-! ## Facts about `_extract_filaments` -/

theorem mkFilament_ok_elim {types colors vendors densities costs : List Json}
    {i : Nat} {f : FilamentInfo}
    (h : mkFilament types colors vendors densities costs i = .ok f) :
    ∃ cname density cost,
      hexToColorNameJson (colors.getD i (.s "")) = .ok cname ∧
      f = { slot := (i : Int) + 1
            filament_type := types.getD i (.s "Unknown")
            color := colors.getD i (.s "#808080")
            color_name := cname
            vendor := vendors.getD i (.s "Unknown")
            density := density
            cost_per_kg := cost } := by
  unfold mkFilament at h
  rw [exBind_ok] at h; obtain ⟨cname, h1, h⟩ := h
  rw [exBind_ok] at h; obtain ⟨density, h2, h⟩ := h
  rw [exBind_ok] at h; obtain ⟨cost, h3, h⟩ := h
  rw [exPure_ok] at h
  exact ⟨cname, density, cost, h1, h.symm⟩

theorem mkFilament_ok_slot {types colors vendors densities costs : List Json}
    {i : Nat} {f : FilamentInfo}
    (h : mkFilament types colors vendors densities costs i = .ok f) :
    f.slot = (i : Int) + 1 := by
  obtain ⟨cname, density, cost, _, hf⟩ := mkFilament_ok_elim h
  rw [hf]

theorem extractFilaments_ok_elim {ps : Json} {fl : List FilamentInfo}
    (h : extractFilaments ps = .ok fl) :
    ∃ types colors vendors densities costs,
      settingList ps "filament_type" = .ok types ∧
      settingList ps "filament_colour" = .ok colors ∧
      settingList ps "filament_vendor" = .ok vendors ∧
      settingList ps "filament_density" = .ok densities ∧
      settingList ps "filament_cost" = .ok costs ∧
      exMapM (mkFilament types colors vendors densities costs)
        (List.range (max (max types.length colors.length) 1)) = .ok fl := by
  unfold extractFilaments at h
  rw [exBind_ok] at h; obtain ⟨types, h1, h⟩ := h
  rw [exBind_ok] at h; obtain ⟨colors, h2, h⟩ := h
  rw [exBind_ok] at h; obtain ⟨vendors, h3, h⟩ := h
  rw [exBind_ok] at h; obtain ⟨densities, h4, h⟩ := h
  rw [exBind_ok] at h; obtain ⟨costs, h5, h⟩ := h
  exact ⟨types, colors, vendors, densities, costs, h1, h2, h3, h4, h5, h⟩

/-- Updating filaments from the G-code overlay never touches slots. -/
theorem updateFilaments_slots (gstats : Option GCodeStatistics)
    (fs : List FilamentInfo) :
    (updateFilamentsFromGcode gstats fs).map (fun f => f.slot)
      = fs.map (fun f => f.slot) := by
  cases gstats with
  | none => rfl
  | some gs =>
      simp only [updateFilamentsFromGcode, List.map_map]
      rfl

/-! ## C1: filament count and slot contiguity -/

/-- C1: for every project-settings mapping whose declared filament-type
sequence is `types` and filament-color sequence is `colors`, a successful
`_extract_filaments` run produces exactly
`max (len types) (len colors) 1` filaments whose `slot` fields are, in
list order, exactly `1, 2, ..., count`. -/
theorem filament_count_and_slots (ps : Json) (types colors : List Json)
    (fl : List FilamentInfo)
    (htypes : settingList ps "filament_type" = .ok types)
    (hcolors : settingList ps "filament_colour" = .ok colors)
    (h : extractFilaments ps = .ok fl) :
    fl.length = max (max types.length colors.length) 1 ∧
    fl.map (fun f => f.slot)
      = (List.range fl.length).map (fun (i : Nat) => (i : Int) + 1) := by
  obtain ⟨t, c, v, d, co, h1, h2, _, _, _, hm⟩ := extractFilaments_ok_elim h
  rw [htypes] at h1
  rw [hcolors] at h2
  injection h1 with h1
  injection h2 with h2
  subst h1
  subst h2
  have hlen : fl.length = max (max types.length colors.length) 1 := by
    rw [exMapM_ok_length hm, List.length_range]
  refine ⟨hlen, ?_⟩
  have hfg : ∀ (a : Nat) (b : FilamentInfo),
      mkFilament types colors v d co a = .ok b → b.slot = (a : Int) + 1 :=
    fun _ _ hb => mkFilament_ok_slot hb
  have hmap := exMapM_ok_map hfg hm
  rw [hlen]
  exact hmap

/-- Concrete project settings used by witnesses: two declared filament
types, one declared color. -/
def psTwoTypes : Json :=
  .obj [("filament_type", .arr [.s "PLA", .s "PETG"]),
        ("filament_colour", .arr [.s "#FFFFFF"])]

/-- The filament list `_extract_filaments` produces on `psTwoTypes`. -/
def flTwoTypes : List FilamentInfo :=
  [{ slot := 1, filament_type := .s "PLA", color := .s "#FFFFFF",
     color_name := "Branco", vendor := .s "Unknown",
     density := (124 : ℚ) / 100, cost_per_kg := 0 },
   { slot := 2, filament_type := .s "PETG", color := .s "#808080",
     color_name := "", vendor := .s "Unknown",
     density := (124 : ℚ) / 100, cost_per_kg := 0 }]

/-- Witness for C1 at a concrete settings mapping. -/
theorem filament_count_and_slots_witness :
    extractFilaments psTwoTypes = .ok flTwoTypes ∧
    flTwoTypes.length = max (max 2 1) 1 ∧
    flTwoTypes.map (fun f => f.slot)
      = (List.range flTwoTypes.length).map (fun (i : Nat) => (i : Int) + 1) := by
  refine ⟨rfl, ?_⟩
  have := filament_count_and_slots psTwoTypes
    [.s "PLA", .s "PETG"] [.s "#FFFFFF"] flTwoTypes rfl rfl rfl
  exact this

/-! ## C10: slots past the declared colors get the gray default but no
color name -/

/-- C10: for every slot index `i` at or beyond the declared color list, a
successful `_extract_filaments` run gives that filament the default color
`'#808080'` and the empty color name (the name is derived from `''`, not
from the default hex). -/
theorem default_color_has_no_name (ps : Json) (colors : List Json)
    (fl : List FilamentInfo) (i : Nat)
    (hcolors : settingList ps "filament_colour" = .ok colors)
    (h : extractFilaments ps = .ok fl)
    (hge : colors.length ≤ i) (hi : i < fl.length) :
    (fl.get ⟨i, hi⟩).color = .s "#808080" ∧
    (fl.get ⟨i, hi⟩).color_name = "" := by
  obtain ⟨t, c, v, d, co, h1, h2, _, _, _, hm⟩ := extractFilaments_ok_elim h
  rw [hcolors] at h2
  injection h2 with h2
  subst h2
  have hlen : fl.length = max (max t.length colors.length) 1 := by
    rw [exMapM_ok_length hm, List.length_range]
  have hget := exMapM_ok_get hm i (by rw [List.length_range, ← hlen]; exact hi) hi
  rw [List.get_range] at hget
  obtain ⟨cname, density, cost, hc, hf⟩ := mkFilament_ok_elim hget
  rw [List.getD_eq_default _ _ hge] at hc
  constructor
  · rw [hf]
    exact List.getD_eq_default _ _ hge
  · rw [hf]
    have : hexToColorNameJson (.s "") = .ok "" := rfl
    rw [this] at hc
    injection hc with hc
    exact hc.symm

/-- Witness for C10: on `psTwoTypes` the second slot (index 1, beyond the
one declared color) carries the gray default and an empty name. -/
theorem default_color_has_no_name_witness :
    extractFilaments psTwoTypes = .ok flTwoTypes ∧ (1 : Nat) ≤ 1 ∧
    (flTwoTypes.get ⟨1, by decide⟩).color = .s "#808080" ∧
    (flTwoTypes.get ⟨1, by decide⟩).color_name = "" := by
  refine ⟨rfl, le_refl 1, ?_⟩
  exact default_color_has_no_name psTwoTypes [.s "#FFFFFF"] flTwoTypes 1
    rfl rfl (by decide) (by decide)

end ThreeMF

namespace ThreeMF

/-! ## C5: the color-name mapping on concrete hex inputs -/

/-- C5 counterexample: the claim says hex `'#123456'` maps to the empty
name; in fact its nearest palette entry `(77, 77, 77)` lies at squared
distance `4187 < 10000`, so the name is that entry's label. -/
theorem hex123456_not_empty : hexToColorName "#123456" ≠ "" := by decide

/-- C5 (amended): `'#FFFFFF'` maps to the palette's white label
`'Branco'`; `'#123456'` maps to `'Cinza Escuro'`, the label of its
nearest palette entry `(77, 77, 77)` at squared distance `4187`, which is
below the rejection threshold `10000`. -/
theorem hex_color_names :
    hexToColorName "#FFFFFF" = "Branco" ∧
    hexToColorName "#123456" = "Cinza Escuro" ∧
    nearestColor 18 52 86 = (some 4187, "Cinza Escuro") ∧
    (4187 : Int) < 10000 := by
  refine ⟨by decide, by decide, by decide, by decide⟩

/-! ## C6: bed-temperature key selection -/

/-- C6: bed-temperature key selection is a case-insensitive substring
match on the bed-type label with priority `'cool'`, `'textured'`,
`'eng'`, falling back to the hot-plate key; in particular
`'Textured PEI Plate'` selects the textured key and `'Cool Plate'` the
cool key. -/
theorem bed_temp_key_selection :
    bedTempKey "Textured PEI Plate" = "textured_plate_temp" ∧
    bedTempKey "Cool Plate" = "cool_plate_temp" ∧
    (∀ bt, pyContains (pyLower bt) "cool" = true →
      bedTempKey bt = "cool_plate_temp") ∧
    (∀ bt, pyContains (pyLower bt) "cool" = false →
      pyContains (pyLower bt) "textured" = true →
      bedTempKey bt = "textured_plate_temp") ∧
    (∀ bt, pyContains (pyLower bt) "cool" = false →
      pyContains (pyLower bt) "textured" = false →
      pyContains (pyLower bt) "eng" = true →
      bedTempKey bt = "eng_plate_temp") ∧
    (∀ bt, pyContains (pyLower bt) "cool" = false →
      pyContains (pyLower bt) "textured" = false →
      pyContains (pyLower bt) "eng" = false →
      bedTempKey bt = "hot_plate_temp") := by
  refine ⟨by decide, by decide, ?_, ?_, ?_, ?_⟩ <;>
    intro bt <;> intros <;> simp [bedTempKey, *]

/-- Witness for C6: a label matching none of the substrings selects the
hot-plate key. -/
theorem bed_temp_key_selection_witness :
    pyContains (pyLower "High Temp Plate") "cool" = false ∧
    pyContains (pyLower "High Temp Plate") "textured" = false ∧
    pyContains (pyLower "High Temp Plate") "eng" = false ∧
    bedTempKey "High Temp Plate" = "hot_plate_temp" :=
  ⟨by decide, by decide, by decide,
   bed_temp_key_selection.2.2.2.2.2 "High Temp Plate"
     (by decide) (by decide) (by decide)⟩

end ThreeMF

namespace ThreeMF

/-! ## C8: name-similarity matching among G-code candidates -/

/-- C8: with exactly the two candidates `part.gcode` and
`part_plate2.gcode` next to a container named `part.3mf`, similarity
matching returns `part.gcode` whatever disambiguation function is or is
not supplied (the selector is never consulted). -/
theorem similarity_match_selects_part (sel : Option (List String → String)) :
    findMatchingGcode "part.3mf" ["part.gcode", "part_plate2.gcode"] sel
      = some "part.gcode" := rfl

/-! ## C9: extraction is deterministic up to the timestamp -/

/-- A summary with its extraction timestamp normalized away. -/
def eraseDate (s : ProjectSummary) : ProjectSummary :=
  { s with extraction_date := 0 }

/-- C9: two runs of `extract()` on the same world (same container,
directory and machine-control stream) at different clock readings agree
on every field except the extraction timestamp. -/
theorem extract_deterministic (w : World) (t1 t2 : Nat) :
    (extractAt w t1).map eraseDate = (extractAt w t2).map eraseDate := by
  unfold extractAt
  cases extractPre w <;> rfl

end ThreeMF

namespace ThreeMF

/-! ## C3: malformed main-model XML aborts extraction -/

/-- A container whose `3D/3dmodel.model` entry is present but is not
well-formed XML. -/
def archBadMainModel : Archive := [("3D/3dmodel.model", {})]

/-- A container whose `Metadata/model_settings.config` entry is present
but is not well-formed XML. -/
def archBadModelSettings : Archive := [("Metadata/model_settings.config", {})]

/-- C3: `_load_main_model` catches only the missing-entry `KeyError`, so
a malformed `3D/3dmodel.model` raises `ET.ParseError` out of `extract()`
instead of degrading to an empty result. The sibling loader
`_load_model_settings`, by contrast, does catch `ParseError`: on a
container whose model-settings entry is malformed, extraction proceeds
past every XML load and fails only where every run fails — with the
unconditional `TypeError` from the `PrintSettings` constructor — not
with a parse error. -/
theorem malformed_main_model_aborts :
    (extractAt { filename := "p.3mf", archive := archBadMainModel } 0).map
        (fun _ => ()) = .error .parseError ∧
    loadMainModel archBadMainModel = .error .parseError ∧
    loadModelSettings archBadModelSettings = none ∧
    (extractAt { filename := "p.3mf", archive := archBadModelSettings } 0).map
        (fun _ => ()) = .error .typeError :=
  ⟨rfl, rfl, rfl, rfl⟩

end ThreeMF

namespace ThreeMF

/-! ## C7: behaviour when no machine-control stream is available -/

/-- A world with a resolved G-code path whose stream is unreadable: the
scanner (spec §4.3) raises on it. -/
def wUnreadableStream : World :=
  { filename := "p.3mf", archive := [], providedGcodePath := some "p.gcode",
    fileExists := fun _ => true, parseGcode := fun _ => .error () }

/-- A world with no G-code candidates at all. -/
def wNoGcode : World := { filename := "p.3mf", archive := [] }

/-- C7: the program contradicts the claim on every leg. With no
machine-control candidates the statistics stage itself raises nothing
and yields absent statistics (`loadGcodeStats` returns `.ok none`), but
`extract()` still returns no summary — it aborts downstream with the
unconditional `TypeError` from the `PrintSettings` constructor (the
undeclared `print_speed` keyword). And when a resolved stream is
unreadable, the scanner's `StreamReadError` propagates out of
`extract()` because `parser.parse()` is wrapped in no `try` at all. -/
theorem gcode_missing_or_unreadable_behavior :
    resolveGcodePath wNoGcode = none ∧
    loadGcodeStats wNoGcode (resolveGcodePath wNoGcode) = .ok none ∧
    (extractAt wNoGcode 0).map (fun _ => ()) = .error .typeError ∧
    (extractAt wUnreadableStream 0).map (fun _ => ())
      = .error .streamReadError :=
  ⟨rfl, rfl, rfl, rfl⟩

end ThreeMF

namespace ThreeMF

/-! ## C2: plates when no per-plate JSON entry exists -/

/-- With no archive entry matching the plate pattern, the plate list
`_extract_plates` returns is: empty when the model-settings XML is absent
or has no `<plate>` element, and the one synthetic plate otherwise. -/
theorem extractPlates_no_json_cases {ar : Archive} {ps : Json}
    {ms : Option XmlElem} {plates : List PlateInfo}
    (hno : ∀ nm ∈ namesOf ar, isPlateJsonName nm = false)
    (h : extractPlates ar ps ms = .ok plates) :
    (ms = none → plates = []) ∧
    (∀ e, ms = some e → findFirstTag e "plate" = none → plates = []) ∧
    (∀ e pe, ms = some e → findFirstTag e "plate" = some pe →
      plates.length = 1) := by
  have hfold : exFoldlM (plateStep ar) ([] : List PlateInfo) (namesOf ar)
      = .ok [] :=
    exFoldlM_fixed (fun nm hnm => by simp [plateStep, hno nm hnm])
  unfold extractPlates at h
  rw [exBind_ok] at h
  obtain ⟨p0, hp0, h⟩ := h
  rw [hfold] at hp0
  injection hp0 with hp0
  subst hp0
  simp only [List.isEmpty_nil, if_true] at h
  refine ⟨?_, ?_, ?_⟩
  · intro hms
    subst hms
    injection h with h
    exact h.symm
  · intro e hms hpe
    subst hms
    have h' : (match findFirstTag e "plate" with
        | none => Except.ok ([] : List PlateInfo)
        | some pe => do
            let p ← mkSyntheticPlate ps pe
            Except.ok ([] ++ [p])) = Except.ok plates := h
    rw [hpe] at h'
    injection h' with h'
    exact h'.symm
  · intro e pe hms hpe
    subst hms
    have h' : (match findFirstTag e "plate" with
        | none => Except.ok ([] : List PlateInfo)
        | some pe => do
            let p ← mkSyntheticPlate ps pe
            Except.ok ([] ++ [p])) = Except.ok plates := h
    rw [hpe] at h'
    rw [exBind_ok] at h'
    obtain ⟨p, _, h'⟩ := h'
    injection h' with h'
    rw [← h']
    rfl

/-- `_extract_print_settings` never returns a value: every constructor
argument may or may not raise, but the constructor call itself always
raises `TypeError` (undeclared `print_speed` keyword). -/
theorem extractPrintSettings_never_ok {ps : Json} {st : PrintSettings}
    (h : extractPrintSettings ps = .ok st) : False := by
  simp only [extractPrintSettings] at h
  rw [exBind_ok] at h; obtain ⟨_, _, h⟩ := h
  rw [exBind_ok] at h; obtain ⟨_, _, h⟩ := h
  rw [exBind_ok] at h; obtain ⟨_, _, h⟩ := h
  rw [exBind_ok] at h; obtain ⟨_, _, h⟩ := h
  rw [exBind_ok] at h; obtain ⟨_, _, h⟩ := h
  rw [exBind_ok] at h; obtain ⟨_, _, h⟩ := h
  rw [exBind_ok] at h; obtain ⟨_, _, h⟩ := h
  rw [exBind_ok] at h; obtain ⟨_, _, h⟩ := h
  rw [exBind_ok] at h; obtain ⟨_, _, h⟩ := h
  rw [exBind_ok] at h; obtain ⟨_, _, h⟩ := h
  rw [exBind_ok] at h; obtain ⟨_, _, h⟩ := h
  rw [exBind_ok] at h; obtain ⟨_, _, h⟩ := h
  rw [exBind_ok] at h; obtain ⟨_, _, h⟩ := h
  rw [exBind_ok] at h; obtain ⟨_, _, h⟩ := h
  rw [exBind_ok] at h; obtain ⟨_, _, h⟩ := h
  rw [exBind_ok] at h; obtain ⟨_, _, h⟩ := h
  rw [exBind_ok] at h; obtain ⟨_, _, h⟩ := h
  exact Except.noConfusion h

/-- Consequently `extract()` never returns a summary: every run either
fails earlier or reaches `_extract_print_settings` and aborts there. -/
theorem extract_never_ok {w : World} {now : Nat} {s : ProjectSummary}
    (h : extractAt w now = .ok s) : False := by
  obtain ⟨s0, hpre, _⟩ := extractAt_ok_elim h
  obtain ⟨gstats, mainModel, filaments0, printer_model, nozzleJ, nozzle0,
    nozzle, objects, plates, settings,
    _, _, _, _, _, _, _, _, _, h10, _⟩ := extractPre_ok_elim hpre
  exact extractPrintSettings_never_ok h10

/-- C2 (amended): for every container in which no archive entry matches
the per-plate JSON pattern, the plate list `_extract_plates` builds
contains exactly one synthetic default plate when the model-settings XML
is present with a `<plate>` element, and is empty when that document is
absent or has no `<plate>` element; and no summary containing any plate
list is ever returned by `extract()` itself, which always aborts in
`_extract_print_settings` before the summary is assembled. -/
theorem one_synthetic_plate_or_none :
    (∀ (ar : Archive) (ps : Json) (ms : Option XmlElem)
       (plates : List PlateInfo),
      (∀ nm ∈ namesOf ar, isPlateJsonName nm = false) →
      extractPlates ar ps ms = .ok plates →
      (ms = none → plates = []) ∧
      (∀ e, ms = some e → findFirstTag e "plate" = none → plates = []) ∧
      (∀ e pe, ms = some e → findFirstTag e "plate" = some pe →
        plates.length = 1)) ∧
    (∀ (w : World) (now : Nat), ∃ e, extractAt w now = .error e) := by
  constructor
  · intro ar ps ms plates hno h
    exact extractPlates_no_json_cases hno h
  · intro w now
    cases hx : extractAt w now with
    | error e => exact ⟨e, rfl⟩
    | ok s => exact (extract_never_ok hx).elim

/-- A container with a model-settings document that carries a `<plate>`
element, and no per-plate JSON entries. -/
def msWithPlate : XmlElem := .mk "config" [] none [.mk "plate" [] none []]

/-- Project settings whose `nozzle_diameter` sequence already holds a
JSON number, as some producers write it. -/
def psNumNozzle : Json := .obj [("nozzle_diameter", .arr [.num ((2 : ℚ) / 5)])]

def wSyntheticPlate : World :=
  { filename := "p.3mf"
    archive := [("Metadata/model_settings.config", { asXml := some msWithPlate }),
                ("Metadata/project_settings.config", { asJson := some psNumNozzle })] }

/-- The one synthetic plate `_extract_plates` builds on
`wSyntheticPlate`'s archive. -/
def synPlateDefault : PlateInfo :=
  { plate_id := 1, name := "Plate 1", bed_type := .s "unknown",
    nozzle_diameter := .num ((2 : ℚ) / 5), is_sequential := .b false,
    objects := [], print_time_seconds := .null, weight_grams := .null }

/-- Witness for C2: on `wSyntheticPlate`'s archive the no-plate-JSON
hypothesis holds and `_extract_plates` builds exactly one synthetic
plate. -/
theorem one_synthetic_plate_or_none_witness :
    extractPlates wSyntheticPlate.archive
        (loadProjectSettings wSyntheticPlate.archive) (some msWithPlate)
      = .ok [synPlateDefault] ∧
    [synPlateDefault].length = 1 :=
  ⟨rfl,
   (one_synthetic_plate_or_none.1 wSyntheticPlate.archive
      (loadProjectSettings wSyntheticPlate.archive) (some msWithPlate)
      [synPlateDefault] (by decide) rfl).2.2
     msWithPlate (.mk "plate" [] none []) rfl rfl⟩

/-- A container with a main model but no model-settings document and no
per-plate JSON entries. -/
def wNoPlateData : World :=
  { filename := "p.3mf"
    archive := [("3D/3dmodel.model", { asXml := some (.mk "model" [] none []) })] }

/-- C2 counterexample: on `wNoPlateData` no archive entry matches the
plate pattern, yet extraction produces no synthetic plate at all — it
aborts with the settings-constructor `TypeError`, and even the plate
list `_extract_plates` had built for the summary was empty, not a
singleton. -/
theorem no_plate_entries_empty_list :
    (namesOf wNoPlateData.archive).all (fun nm => !isPlateJsonName nm)
      = true ∧
    (extractAt wNoPlateData 0).map (fun _ => ()) = .error .typeError ∧
    extractPlates wNoPlateData.archive
        (loadProjectSettings wNoPlateData.archive)
        (loadModelSettings wNoPlateData.archive) = .ok [] :=
  ⟨by decide, rfl, rfl⟩

end ThreeMF

namespace ThreeMF

/-! ## C4: material-slot references -/

/-- A model-settings document declaring one object with extruder 2, in a
container whose project settings declare no filaments (so only the one
default slot 1 exists). -/
def msObjExtruder2 : XmlElem :=
  .mk "config" [] none
    [.mk "object" [("id", "1")] none
      [.mk "metadata" [("key", "extruder"), ("value", "2")] none []]]

def wObjExtruder2 : World :=
  { filename := "p.3mf"
    archive := [("Metadata/model_settings.config", { asXml := some msObjExtruder2 })] }

/-- C4: on `wObjExtruder2` the components of the claimed invariant fail
twice over. `extract()` itself never returns any summary — it aborts
with the `TypeError` raised by the `PrintSettings` constructor
(undeclared `print_speed` keyword) — so the claim's universe of
"summaries returned by extract()" is empty; and the values extraction
had computed for that summary pair an object referencing extruder 2 with
a filament list whose only slot is 1: the declared material-slot
reference is copied without any validation. -/
theorem declared_extruder_may_dangle :
    (extractAt wObjExtruder2 0).map (fun _ => ()) = .error .typeError ∧
    (extractObjects (loadModelSettings wObjExtruder2.archive)).map
        (fun l => l.map (fun o => o.extruder)) = .ok [2] ∧
    (extractFilaments (loadProjectSettings wObjExtruder2.archive)).map
        (fun l => l.map (fun f => f.slot)) = .ok [1] ∧
    (2 : Int) ∉ [(1 : Int)] :=
  ⟨rfl, rfl, rfl, by decide⟩

end ThreeMF
